import Mathlib

/-!
Verification development for the `spacelift` repository: a Python client for
the Spacelift GraphQL API (`src/spacelift/main.py`, class `Spacelift`) and an
in-memory mock of the same surface (`src/spacelift/mock_spacelift.py`, class
`MockSpacelift`).

Shallow embedding conventions:
- Python dicts are association lists preserving insertion order; lookup takes
  the first match.  Values are modelled by `Value` (one level of nesting: a
  context's `config` is a list of flat dicts, which is all the code stores).
- Python exceptions become an explicit error type `MockError` (the structured
  `Exception({"message": ..., "path": [...]})` payloads raised by the mock,
  plus `KeyError`-style failures from `d[k]` on a missing key).
- The real client's stateful parts (env fallback, jwt caching) are modelled by
  passing the environment / the transport responses / the cached value
  explicitly.
- `random.choice`-generated id suffixes are modelled by an explicit `gen`
  string argument.
-/

/-- Scalar Python values stored inside a config entry (`{"id": ..., "value": ...,
"writeOnly": ...}`) or inside a token-exchange response object. -/
inductive FlatVal where
  | fStr (s : String)
  | fBool (b : Bool)
  | fNone
deriving DecidableEq

/-- A flat Python dict (e.g. a ConfigEntry, or the `apiKeyUser` object). -/
abbrev FlatDict := List (String × FlatVal)

/-- Values stored in the mock's entity dicts: strings, booleans, `None`,
lists of strings (labels), and lists of flat dicts (a context's `config`). -/
inductive Value where
  | vStr (s : String)
  | vBool (b : Bool)
  | vNone
  | vStrList (l : List String)
  | vDictList (l : List FlatDict)
deriving DecidableEq

/-- A Python dict holding an entity (space / stack / context), as an ordered
association list. -/
abbrev Dict := List (String × Value)

/-- `d[k]` / `d.get(k)`: first value bound to key `k`, if any. -/
def dlookup {α : Type} (d : List (String × α)) (k : String) : Option α :=
  match d with
  | [] => none
  | (k', v) :: rest => if k' = k then some v else dlookup rest k

/-- `mock_spacelift.field_filter`:
`{field: item[field] for field in item if field in query_fields}` —
iterates the item's own keys in order, keeping those present in
`query_fields`.  Polymorphic so it applies both to entity dicts and to
config-entry flat dicts. -/
def field_filter {α : Type} (item : List (String × α)) (query_fields : List String) :
    List (String × α) :=
  item.filter (fun kv => query_fields.contains kv.1)

/-- Python `d[k] = v`: replace the value at an existing key in place (keeping
its position), else append.  (The mock only ever assigns to existing keys;
dicts built by the code have unique keys.) -/
def dictSet {α : Type} (d : List (String × α)) (k : String) (v : α) :
    List (String × α) :=
  if d.any (fun kv => kv.1 = k) then
    d.map (fun kv => if kv.1 = k then (k, v) else kv)
  else d ++ [(k, v)]

/-- Errors raised by the mock: the structured `Exception({"message": m,
"path": p})` payloads, and `KeyError` from indexing a dict at a missing key
(`typeErr` models iterating / filtering a non-list `config` value). -/
inductive MockError where
  | apiError (message : String) (path : List String)
  | keyError (key : String)
  | typeErr
deriving DecidableEq

instance {ε α : Type} [DecidableEq ε] [DecidableEq α] : DecidableEq (Except ε α) :=
  fun a b =>
    match a, b with
    | .ok x, .ok y =>
      if h : x = y then .isTrue (by rw [h]) else .isFalse (by intro he; cases he; exact h rfl)
    | .error x, .error y =>
      if h : x = y then .isTrue (by rw [h]) else .isFalse (by intro he; cases he; exact h rfl)
    | .ok _, .error _ => .isFalse (by intro he; cases he)
    | .error _, .ok _ => .isFalse (by intro he; cases he)

/-- `MockSpacelift._data`: the three in-memory collections.  (`stacks` is a
reserved word in this Lean environment, hence the primed field name.) -/
structure MockState where
  spaces : List Dict
  stacks' : List Dict
  contexts : List Dict
deriving DecidableEq

/-- The state right after `MockSpacelift.__init__`. -/
def emptyMock : MockState := ⟨[], [], []⟩

/-- `[x for x in l if x["id"] == target]` over entity dicts: Python evaluates
left to right and raises `KeyError` at the first dict missing the key. -/
def filterByKeyEq (l : List Dict) (key : String) (target : String) :
    Except MockError (List Dict) :=
  match l with
  | [] => .ok []
  | d :: rest =>
    match dlookup d key with
    | none => .error (.keyError key)
    | some v =>
      match filterByKeyEq rest key target with
      | .error e => .error e
      | .ok r => .ok (if v = .vStr target then d :: r else r)

/-- `MockSpacelift.get_stacks`. -/
def getStacks (st : MockState) (query_fields : Option (List String)) : List Dict :=
  let qf := query_fields.getD ["id", "space"]
  st.stacks'.map (fun s => field_filter s qf)

/-- `MockSpacelift.get_stack_by_id`: list, filter by `stack["id"] == stack_id`,
return `None` on no match else the first hit. -/
def getStackById (st : MockState) (stack_id : String)
    (query_fields : Option (List String)) : Except MockError (Option Dict) :=
  let qf := query_fields.getD ["id", "space"]
  match filterByKeyEq (getStacks st (some qf)) "id" stack_id with
  | .error e => .error e
  | .ok hits => .ok hits.head?

/-- `MockSpacelift.get_spaces`. -/
def getSpaces (st : MockState) (query_fields : Option (List String)) : List Dict :=
  let qf := query_fields.getD ["id", "name"]
  st.spaces.map (fun s => field_filter s qf)

/-- `MockSpacelift.get_space_by_id`. -/
def getSpaceById (st : MockState) (space_id : String)
    (query_fields : Option (List String)) : Except MockError (Option Dict) :=
  let qf := query_fields.getD ["id", "name"]
  match filterByKeyEq (getSpaces st (some qf)) "id" space_id with
  | .error e => .error e
  | .ok hits => .ok hits.head?

/-- Python `s.startswith(pre)`: prefix test on the character sequence. -/
def pyStartsWith (s pre : String) : Bool := List.isPrefixOf pre.data s.data

/-- Python `s.split(" ")` on the character list: split at every single space,
keeping empty segments (so consecutive / leading / trailing spaces yield
`""` entries), and `"".split(" ") == [""]`. -/
def pySplitSpaceChars : List Char → List (List Char)
  | [] => [[]]
  | c :: rest =>
    if c = ' ' then [] :: pySplitSpaceChars rest
    else
      match pySplitSpaceChars rest with
      | [] => [[c]]
      | g :: gs => (c :: g) :: gs

/-- Python `s.split(" ")`. -/
def pySplitSpace (s : String) : List String :=
  (pySplitSpaceChars s.data).map (fun cs => String.mk cs)

/-- The nested-config token filter in `MockSpacelift.get_contexts`:
`config_fields = [c for c in field.split(" ")[1:] if c not in "\x7b\x7d"]`.
Python's `c not in "\x7b\x7d"` is a substring test; the substrings of the
two-character string are exactly `""`, `"\x7b"`, `"\x7d"`, `"\x7b\x7d"`. -/
def parseConfigFields (field : String) : List String :=
  ((pySplitSpace field).drop 1).filter
    (fun c => !(["", "\x7b", "\x7d", "\x7b\x7d"].contains c))

/-- One pass of the `for field in query_fields` loop of
`MockSpacelift.get_contexts`, which mutates `query_fields` while iterating:
Python's list iterator reads index `i` of the *current* list, stopping when
`i` reaches the current length.  `list.remove` deletes the first occurrence.
Because the matched element is present, each `remove` + `append` keeps the
length constant, so the loop runs exactly `query_fields.length` iterations;
`fuel` is initialised to that length, making the fuel recursion exact. -/
def configScanStep (fuel : Nat) (qf cfg : List String) (i : Nat) :
    List String × List String :=
  match fuel with
  | 0 => (qf, cfg)
  | fuel + 1 =>
    if h : i < qf.length then
      let field := qf.get ⟨i, h⟩
      if pyStartsWith field "config" then
        configScanStep fuel (qf.erase field ++ ["config"]) (parseConfigFields field) (i + 1)
      else
        configScanStep fuel qf cfg (i + 1)
    else (qf, cfg)

/-- The whole `for field in query_fields` loop with `config_fields = []`
initially; returns the final `query_fields` and `config_fields`. -/
def configScan (qf : List String) : List String × List String :=
  configScanStep qf.length qf [] 0

/-- The `if "config" in query_fields` post-processing loop of
`MockSpacelift.get_contexts`:
`context["config"] = [field_filter(envvar, config_fields) for envvar in context["config"]]`
for each already-filtered context; `KeyError` if a filtered context has no
`config` key, `typeErr` if its value is not a list of dicts. -/
def filterConfigs (contexts : List Dict) (config_fields : List String) :
    Except MockError (List Dict) :=
  match contexts with
  | [] => .ok []
  | c :: rest =>
    match dlookup c "config" with
    | none => .error (.keyError "config")
    | some (.vDictList es) =>
      match filterConfigs rest config_fields with
      | .error e => .error e
      | .ok rest' =>
        .ok (dictSet c "config"
              (.vDictList (es.map (fun e => field_filter e config_fields))) :: rest')
    | some _ => .error .typeErr

/-- `MockSpacelift.get_contexts`.  The second component of the result is the
final value of the caller's `query_fields` list, which the Python code
mutates in place (see the loop modelled by `configScan`). -/
def getContexts (st : MockState) (query_fields : Option (List String)) :
    Except MockError (List Dict × List String) :=
  let qf0 := query_fields.getD ["id", "name"]
  let scan := configScan qf0
  let qf := scan.1
  let config_fields := scan.2
  let contexts := st.contexts.map (fun c => field_filter c qf)
  if qf.contains "config" then
    match filterConfigs contexts config_fields with
    | .error e => .error e
    | .ok contexts' => .ok (contexts', qf)
  else .ok (contexts, qf)

/-- `MockSpacelift.get_context_by_id`. -/
def getContextById (st : MockState) (context_id : String)
    (query_fields : Option (List String)) : Except MockError (Option Dict) :=
  let qf := query_fields.getD ["id", "name"]
  match getContexts st (some qf) with
  | .error e => .error e
  | .ok (contexts, _) =>
    match filterByKeyEq contexts "id" context_id with
    | .error e => .error e
    | .ok hits => .ok hits.head?

/-- The `config = [{"id": envvar["id"], "value": envvar["value"],
"writeOnly": False} for envvar in envvars]` comprehension of
`MockSpacelift.create_context` (`KeyError` on a missing key). -/
def buildConfig (envvars : List FlatDict) : Except MockError (List FlatDict) :=
  match envvars with
  | [] => .ok []
  | e :: rest =>
    match dlookup e "id" with
    | none => .error (.keyError "id")
    | some vid =>
      match dlookup e "value" with
      | none => .error (.keyError "value")
      | some vval =>
        match buildConfig rest with
        | .error er => .error er
        | .ok rest' =>
          .ok ([("id", vid), ("value", vval), ("writeOnly", FlatVal.fBool false)] :: rest')

/-- The duplicate-name scan of `MockSpacelift.create_context`: for each stored
context in order, compare `context["name"]` with the new name and raise the
duplicate-slug error on the first match. -/
def checkDupName (contexts : List Dict) (context_name : String) :
    Except MockError Unit :=
  match contexts with
  | [] => .ok ()
  | c :: rest =>
    match dlookup c "name" with
    | none => .error (.keyError "name")
    | some v =>
      if v = .vStr context_name then
        .error (.apiError
          "could not persist context: context with this slug already exists for this account"
          ["contextCreateV2"])
      else checkDupName rest context_name

/-- `MockSpacelift.create_context`.  Returns the raised error or the result
dict `{"contextCreateV2": field_filter(item, ["id", "name"])}` (modelled as
the pair of the single key and its value), together with the state after the
call.  All mutations (`contexts.append(item)`) happen after every check, so
error outcomes leave the state unchanged, exactly as in the source. -/
def createContext (st : MockState) (context_name space_id description : String)
    (labels : List String) (envvars : List FlatDict) :
    Except MockError (String × Dict) × MockState :=
  match getSpaceById st space_id none with
  | .error e => (.error e, st)
  | .ok parent_space =>
    if parent_space.isNone then
      (.error (.apiError "unauthorized" ["contextCreateV2"]), st)
    else
      match buildConfig envvars with
      | .error e => (.error e, st)
      | .ok config =>
        let item : Dict :=
          [("name", .vStr context_name), ("id", .vStr context_name),
           ("space", .vStr space_id), ("description", .vStr description),
           ("labels", .vStrList labels), ("config", .vDictList config)]
        match checkDupName st.contexts context_name with
        | .error e => (.error e, st)
        | .ok _ =>
          (.ok ("contextCreateV2", field_filter item ["id", "name"]),
           { st with contexts := st.contexts ++ [item] })

/-- `MockSpacelift.create_space`.  `gen` models the 16-character random
alphanumeric string produced by `random.choice`; the id is
`f"\x7bspace_name\x7d-\x7bgenerated_id\x7d"` unless the name is one of the
reserved names `"root"` / `"legacy"`, whose id is the name itself.  The
parent must resolve via `get_space_by_id` unless `name == parent_id ==
"root"` (bootstrap), in which case `parent_space_id` is set to `None`.
No uniqueness check is performed before `spaces.append(item)`. -/
def createSpace (st : MockState) (space_name parent_space_id description : String)
    (labels : List String) (inherit_entities : Bool) (gen : String) :
    Except MockError (String × Dict) × MockState :=
  let id := if space_name = "root" ∨ space_name = "legacy" then space_name
            else space_name ++ "-" ++ gen
  match getSpaceById st parent_space_id none with
  | .error e => (.error e, st)
  | .ok parent_space =>
    let parentRes : Except MockError Value :=
      if parent_space.isNone then
        if space_name = "root" ∧ parent_space_id = "root" then .ok .vNone
        else .error (.apiError "parent space not found" ["spaceCreate"])
      else .ok (.vStr parent_space_id)
    match parentRes with
    | .error e => (.error e, st)
    | .ok pv =>
      let item : Dict :=
        [("name", .vStr space_name), ("id", .vStr id), ("parent", pv),
         ("description", .vStr description), ("labels", .vStrList labels),
         ("inherit_entities", .vBool inherit_entities)]
      (.ok ("spaceCreate", field_filter item ["id", "name"]),
       { st with spaces := st.spaces ++ [item] })

/-- The process environment seen by `Spacelift._validate_params` (the three
`SPACELIFT_*` variables; `none` = unset). -/
structure SpaceliftEnv where
  spacelift_base_url : Option String
  spacelift_key_id : Option String
  spacelift_key_secret : Option String

/-- Python truthiness of an optional string: `None` and `""` are falsy. -/
def isTruthy : Option String → Bool
  | none => false
  | some s => s ≠ ""

/-- Python `a or b` on optional strings: `a` if truthy, else `b`. -/
def pyOr (a b : Option String) : Option String := if isTruthy a then a else b

/-- `Spacelift._validate_params`: apply the env fallback to each argument,
collect every name whose value is still falsy (in dict insertion order
`base_url, key_id, key_secret`), and raise
`ValueError(f"Missing spacelift params: \x7bnull_params\x7d")` when the list
is non-empty — the error payload is modelled as that list of names. -/
def validate_params (env : SpaceliftEnv) (base_url key_id key_secret : Option String) :
    Except (List String) (Option String × Option String × Option String) :=
  let bu := pyOr base_url env.spacelift_base_url
  let ki := pyOr key_id env.spacelift_key_id
  let ks := pyOr key_secret env.spacelift_key_secret
  let null_params :=
    (if isTruthy bu then [] else ["base_url"]) ++
    (if isTruthy ki then [] else ["key_id"]) ++
    (if isTruthy ks then [] else ["key_secret"])
  if null_params.isEmpty then .ok (bu, ki, ks) else .error null_params

/-- The decoded transport response to the token-exchange mutation.
`apiKeyUser = none` models both an absent key and a JSON `null` value —
Python's `result.get("apiKeyUser") is None` covers both identically. -/
structure TokenResponse where
  apiKeyUser : Option FlatDict
deriving DecidableEq

/-- `Spacelift._get_jwt` applied to a decoded response:
raise `ValueError(f"Invalid spacelift keyId: \x7bself.key_id\x7d")` when the
user object is absent/null, else return `result["apiKeyUser"]["jwt"]`
(`KeyError` when the `jwt` key is missing, modelled as an error string). -/
def get_jwt (key_id : String) (resp : TokenResponse) : Except String FlatVal :=
  match resp.apiKeyUser with
  | none => .error ("Invalid spacelift keyId: " ++ key_id)
  | some user =>
    match dlookup user "jwt" with
    | none => .error "KeyError: jwt"
    | some v => .ok v

/-- Python truthiness test `not self._jwt` on the cached value: the initial
`None`, an empty string, `False` and `None`-valued tokens are falsy. -/
def falsyJwt : Option FlatVal → Bool
  | none => true
  | some (.fStr s) => s = ""
  | some (.fBool b) => !b
  | some .fNone => true

/-- `n` successive resource operations on one `Spacelift` instance, each of
which reads the `jwt` property once (via `_execute`).  The property fetches
via `_get_jwt` exactly when `not self._jwt` holds and stores the result in
`self._jwt`.  `resps k` is the transport's response to the `k`-th fetch;
`cnt` counts `_get_jwt` invocations.  Returns the final cache and the count
(or the first raised error, which aborts the run). -/
def jwtOpsRun (key_id : String) (resps : Nat → TokenResponse) :
    Nat → Option FlatVal → Nat → Except String (Option FlatVal × Nat)
  | 0, cur, cnt => .ok (cur, cnt)
  | n + 1, cur, cnt =>
    if falsyJwt cur then
      match get_jwt key_id (resps cnt) with
      | .error e => .error e
      | .ok v => jwtOpsRun key_id resps n (some v) (cnt + 1)
    else
      jwtOpsRun key_id resps n cur cnt

/-! ### Helper lemmas -/

lemma dlookup_filter {α : Type} (d : List (String × α)) (p : String × α → Bool)
    (k : String) (hp : ∀ v, p (k, v) = true) :
    dlookup (d.filter p) k = dlookup d k := by
  induction d with
  | nil => rfl
  | cons kv rest ih =>
    obtain ⟨k', v⟩ := kv
    rw [List.filter_cons]
    by_cases hek : k' = k
    · subst hek
      rw [if_pos (hp v)]
      simp [dlookup, ih]
    · cases hpk : p (k', v) with
      | true => simp [dlookup, hek, ih]
      | false => simp [dlookup, hek, ih]

lemma dlookup_field_filter {α : Type} (d : List (String × α)) (qf : List String)
    (k : String) (hk : k ∈ qf) :
    dlookup (field_filter d qf) k = dlookup d k :=
  dlookup_filter d _ k (fun _ => by simp [hk])

lemma filterByKeyEq_map_nomatch (l : List Dict) (qf : List String) (target : String)
    (hk : "id" ∈ qf)
    (hsome : ∀ d ∈ l, (dlookup d "id").isSome = true)
    (hne : ∀ d ∈ l, dlookup d "id" ≠ some (.vStr target)) :
    filterByKeyEq (l.map (fun d => field_filter d qf)) "id" target = .ok [] := by
  induction l with
  | nil => rfl
  | cons d rest ih =>
    have h1 : dlookup (field_filter d qf) "id" = dlookup d "id" :=
      dlookup_field_filter _ _ _ hk
    obtain ⟨v, hv⟩ := Option.isSome_iff_exists.mp (hsome d (by simp))
    have hrest := ih (fun x hx => hsome x (by simp [hx])) (fun x hx => hne x (by simp [hx]))
    have hvne : ¬ (v = Value.vStr target) := by
      intro he; exact hne d (by simp) (by rw [hv, he])
    simp [filterByKeyEq, h1, hv, hrest, hvne]

lemma configScanStep_no_config (fuel : Nat) (qf cfg : List String) (i : Nat)
    (h : ∀ f ∈ qf, pyStartsWith f "config" = false) :
    configScanStep fuel qf cfg i = (qf, cfg) := by
  induction fuel generalizing i with
  | zero => rfl
  | succ fuel ih =>
    by_cases hi : i < qf.length
    · have hf : pyStartsWith (qf.get ⟨i, hi⟩) "config" = false := h _ (qf.get_mem i hi)
      simp only [List.get_eq_getElem] at hf
      simp [configScanStep, hi, hf, ih]
    · simp [configScanStep, hi]

lemma jwtOpsRun_cached (key_id : String) (resps : Nat → TokenResponse) (v : FlatVal)
    (hv : falsyJwt (some v) = false) (n cnt : Nat) :
    jwtOpsRun key_id resps n (some v) cnt = .ok (some v, cnt) := by
  induction n generalizing cnt with
  | zero => rfl
  | succ n ih => simp [jwtOpsRun, hv, ih]

lemma buildConfig_isOk (envvars : List FlatDict)
    (h : ∀ e ∈ envvars,
      (dlookup e "id").isSome = true ∧ (dlookup e "value").isSome = true) :
    ∃ cfg, buildConfig envvars = .ok cfg := by
  induction envvars with
  | nil => exact ⟨[], rfl⟩
  | cons e rest ih =>
    obtain ⟨hid, hval⟩ := h e (by simp)
    obtain ⟨vid, hvid⟩ := Option.isSome_iff_exists.mp hid
    obtain ⟨vval, hvval⟩ := Option.isSome_iff_exists.mp hval
    obtain ⟨cfg, hcfg⟩ := ih (fun x hx => h x (by simp [hx]))
    refine ⟨[("id", vid), ("value", vval), ("writeOnly", FlatVal.fBool false)] :: cfg, ?_⟩
    simp [buildConfig, hvid, hvval, hcfg]

lemma checkDupName_dup (contexts : List Dict) (nm : String)
    (hall : ∀ c ∈ contexts, (dlookup c "name").isSome = true)
    (hdup : ∃ c ∈ contexts, dlookup c "name" = some (.vStr nm)) :
    checkDupName contexts nm = .error (.apiError
      "could not persist context: context with this slug already exists for this account"
      ["contextCreateV2"]) := by
  induction contexts with
  | nil => simp at hdup
  | cons c rest ih =>
    obtain ⟨v, hv⟩ := Option.isSome_iff_exists.mp (hall c (by simp))
    by_cases hvc : v = Value.vStr nm
    · simp [checkDupName, hv, hvc]
    · have hrest : ∃ c' ∈ rest, dlookup c' "name" = some (.vStr nm) := by
        obtain ⟨c', hc', hv'⟩ := hdup
        rcases List.mem_cons.mp hc' with rfl | hmem
        · rw [hv] at hv'
          exact absurd (Option.some.inj hv') hvc
        · exact ⟨c', hmem, hv'⟩
      simp [checkDupName, hv, hvc, ih (fun x hx => hall x (by simp [hx])) hrest]

/-- The nested-config projection that `get_contexts` applies to a context's
stored `config` value (used to state claim C4). -/
def projConfig (v : Option Value) (cfgf : List String) : Value :=
  match v with
  | some (.vDictList es) => .vDictList (es.map (fun e => field_filter e cfgf))
  | _ => .vNone

lemma filterConfigs_map (cs : List Dict) (qf cfgf : List String)
    (hq : "config" ∈ qf)
    (h : ∀ c ∈ cs, ∃ es, dlookup c "config" = some (.vDictList es)) :
    filterConfigs (cs.map (fun c => field_filter c qf)) cfgf =
      .ok (cs.map (fun c => dictSet (field_filter c qf) "config"
        (projConfig (dlookup c "config") cfgf))) := by
  induction cs with
  | nil => rfl
  | cons c rest ih =>
    obtain ⟨es, hes⟩ := h c (by simp)
    have h1 : dlookup (field_filter c qf) "config" = dlookup c "config" :=
      dlookup_field_filter _ _ _ hq
    simp [filterConfigs, h1, hes, ih (fun x hx => h x (by simp [hx])), projConfig]

lemma mem_dictSet {α : Type} (d : List (String × α)) (k : String) (v : α)
    (kv : String × α) (hkv : kv ∈ dictSet d k v) :
    (kv ∈ d ∧ kv.1 ≠ k) ∨ kv = (k, v) := by
  unfold dictSet at hkv
  by_cases hany : d.any (fun kv => kv.1 = k) = true
  · simp only [hany, if_true, List.mem_map] at hkv
    obtain ⟨kv0, hkv0, heq⟩ := hkv
    by_cases hk0 : kv0.1 = k
    · right
      simp only [hk0, if_true] at heq
      exact heq.symm
    · left
      simp only [hk0, if_false] at heq
      exact heq ▸ ⟨hkv0, hk0⟩
  · simp only [hany, Bool.false_eq_true, if_false, List.mem_append,
      List.mem_singleton] at hkv
    rcases hkv with hmem | heq
    · left
      refine ⟨hmem, ?_⟩
      intro he
      exact hany (List.any_eq_true.mpr ⟨kv, hmem, by simp [he]⟩)
    · right; exact heq

/-! ### Concrete fixtures used by witnesses and counterexamples -/

/-- The space item created by `create_space("root", "root", "")` on an empty
mock (bootstrap case). -/
def rootSpaceItem : Dict :=
  [("name", .vStr "root"), ("id", .vStr "root"), ("parent", .vNone),
   ("description", .vStr ""), ("labels", .vStrList []),
   ("inherit_entities", .vBool true)]

/-- A stack entry as a test would place it into `_data["stacks"]`. -/
def stackItem : Dict := [("id", .vStr "s1"), ("space", .vStr "root")]

/-- The context item created by
`create_context("c", "root", envvars=[one FOO=bar variable])`. -/
def ctxItem : Dict :=
  [("name", .vStr "c"), ("id", .vStr "c"), ("space", .vStr "root"),
   ("description", .vStr ""), ("labels", .vStrList []),
   ("config", .vDictList
     [[("id", .fStr "FOO"), ("value", .fStr "bar"), ("writeOnly", .fBool false)]])]

/-! ### Claims -/

/-- Claim C1 (amended): provided the token exchange answers the first fetch
with a truthy (e.g. non-empty-string) `jwt` value, the first `jwt` property
access invokes `_get_jwt` and caches the value, and every later access across
`n ≥ 1` operations returns the cache without re-fetching: exactly one fetch
happens.  (The unamended claim — at most one fetch for every instance — fails
when the returned token is falsy; see the counterexample.) -/
theorem claim_C1 (key_id : String) (resps : Nat → TokenResponse) (v : FlatVal)
    (hfetch : get_jwt key_id (resps 0) = .ok v)
    (htruthy : falsyJwt (some v) = false)
    (n : Nat) (hn : 1 ≤ n) :
    jwtOpsRun key_id resps n none 0 = .ok (some v, 1) := by
  obtain ⟨m, rfl⟩ : ∃ m, n = m + 1 := ⟨n - 1, by omega⟩
  simp [jwtOpsRun, falsyJwt, hfetch, jwtOpsRun_cached key_id resps v htruthy m 1]

/-- Witness for claim C1: with a transport returning the token `"tok"`, three
operations on a fresh instance perform exactly one token fetch. -/
theorem claim_C1_witness :
    jwtOpsRun "k" (fun _ => ⟨some [("jwt", FlatVal.fStr "tok")]⟩) 3 none 0 =
      .ok (some (.fStr "tok"), 1) :=
  claim_C1 "k" (fun _ => ⟨some [("jwt", FlatVal.fStr "tok")]⟩) (.fStr "tok") rfl rfl 3
    (by omega)

/-- Counterexample to claim C1 as stated: when the token exchange returns the
empty string as `jwt`, `not self._jwt` stays true after caching, so a fresh
instance performing `N = 2` operations invokes the token exchange twice —
refuting "invoked at most once across any number N ≥ 2 of operations, for
every client instance". -/
theorem claim_C1_counterexample :
    jwtOpsRun "k" (fun _ => ⟨some [("jwt", FlatVal.fStr "")]⟩) 2 none 0 =
      .ok (some (.fStr ""), 2) ∧ ¬ ((2 : Nat) ≤ 1) :=
  ⟨rfl, by omega⟩

/-- Claim C2: whenever at least one of `base_url`, `key_id`, `key_secret` is
still falsy after the environment fallback, `_validate_params` fails, and the
error payload contains a field name exactly when that field is missing — all
missing fields are collected, with nothing else in the list. -/
theorem claim_C2 (env : SpaceliftEnv) (base_url key_id key_secret : Option String)
    (hmiss : isTruthy (pyOr base_url env.spacelift_base_url) = false ∨
             isTruthy (pyOr key_id env.spacelift_key_id) = false ∨
             isTruthy (pyOr key_secret env.spacelift_key_secret) = false) :
    ∃ m, validate_params env base_url key_id key_secret = .error m ∧
      (("base_url" ∈ m) ↔ isTruthy (pyOr base_url env.spacelift_base_url) = false) ∧
      (("key_id" ∈ m) ↔ isTruthy (pyOr key_id env.spacelift_key_id) = false) ∧
      (("key_secret" ∈ m) ↔ isTruthy (pyOr key_secret env.spacelift_key_secret) = false) ∧
      (∀ x ∈ m, x = "base_url" ∨ x = "key_id" ∨ x = "key_secret") := by
  cases hb : isTruthy (pyOr base_url env.spacelift_base_url) <;>
    cases hk : isTruthy (pyOr key_id env.spacelift_key_id) <;>
      cases hs : isTruthy (pyOr key_secret env.spacelift_key_secret) <;>
        simp_all [validate_params]

/-- Witness for claim C2: constructing with only `base_url` (and an empty
environment) fails naming exactly `key_id` and `key_secret`. -/
theorem claim_C2_witness :
    ∃ m, validate_params ⟨none, none, none⟩ (some "https://x.app.spacelift.io") none none =
        .error m ∧
      (("base_url" ∈ m) ↔
        isTruthy (pyOr (some "https://x.app.spacelift.io") none) = false) ∧
      (("key_id" ∈ m) ↔ isTruthy (pyOr none none) = false) ∧
      (("key_secret" ∈ m) ↔ isTruthy (pyOr none none) = false) ∧
      (∀ x ∈ m, x = "base_url" ∨ x = "key_id" ∨ x = "key_secret") :=
  claim_C2 ⟨none, none, none⟩ (some "https://x.app.spacelift.io") none none
    (by decide)

/-- Claim C3: `field_filter` keeps exactly the entity's own bindings whose key
occurs in the requested list (requested keys absent from the entity are
omitted, entity keys not requested are excluded), in the entity's own key
order (the result is a sublist of the entity); in particular filtering an
entity with fields `id, name, space` by `["id"]` yields exactly the `id`
binding. -/
theorem claim_C3 (item : Dict) (query_fields : List String) :
    (∀ kv : String × Value, kv ∈ field_filter item query_fields ↔
        kv ∈ item ∧ kv.1 ∈ query_fields) ∧
    (field_filter item query_fields).Sublist item ∧
    (∀ a b c : Value,
      field_filter [("id", a), ("name", b), ("space", c)] ["id"] = [("id", a)]) := by
  refine ⟨?_, List.filter_sublist _, ?_⟩
  · intro kv
    simp [field_filter, List.mem_filter]
  · intro a b c
    rfl

/-- Claim C8: `_get_jwt` fails with an authentication error whose message
names the key id whenever the response's `apiKeyUser` field is absent or
`null` (both decode to `none`), and otherwise returns the value of the user
object's `jwt` field. -/
theorem claim_C8 (key_id : String) (resp : TokenResponse) :
    (resp.apiKeyUser = none →
      get_jwt key_id resp = .error ("Invalid spacelift keyId: " ++ key_id)) ∧
    (∀ user v, resp.apiKeyUser = some user → dlookup user "jwt" = some v →
      get_jwt key_id resp = .ok v) := by
  constructor
  · intro h
    simp [get_jwt, h]
  · intro user v hu hv
    simp [get_jwt, hu, hv]

/-- Witness for claim C8: a null `apiKeyUser` yields the invalid-key error for
key id `"k"`, and a present user object yields its `jwt` string. -/
theorem claim_C8_witness :
    get_jwt "k" ⟨none⟩ = .error "Invalid spacelift keyId: k" ∧
    get_jwt "k" ⟨some [("id", .fStr "u"), ("jwt", .fStr "tok")]⟩ = .ok (.fStr "tok") :=
  ⟨(claim_C8 "k" ⟨none⟩).1 rfl,
   (claim_C8 "k" ⟨some [("id", .fStr "u"), ("jwt", .fStr "tok")]⟩).2 _ _ rfl rfl⟩

/-- Claim C4: on any mock state whose contexts each store a `config` list (as
`create_context` always does), `get_contexts` with query fields
`["id", "config \x7b id value \x7d"]` uses the effective top-level filter
`["id", "config"]` and nested filter `["id", "value"]`: every stored context
is projected (via `field_filter`) to its `id` and `config` bindings only, and
each `config` entry is projected to its `id` and `value` fields only — so
`writeOnly` and `type` never appear in the output. -/
theorem claim_C4 (st : MockState)
    (hwf : ∀ c ∈ st.contexts, ∃ es : List FlatDict,
        dlookup c "config" = some (.vDictList es)) :
    getContexts st (some ["id", "config \x7b id value \x7d"]) =
      .ok (st.contexts.map (fun c => dictSet (field_filter c ["id", "config"]) "config"
            (projConfig (dlookup c "config") ["id", "value"])),
           ["id", "config"]) ∧
    (∀ o ∈ st.contexts.map (fun c => dictSet (field_filter c ["id", "config"]) "config"
            (projConfig (dlookup c "config") ["id", "value"])),
      (∀ kv ∈ o, kv.1 = "id" ∨ kv.1 = "config") ∧
      (∀ es : List FlatDict, ("config", Value.vDictList es) ∈ o →
        ∀ e ∈ es, ∀ kv ∈ e, kv.1 = "id" ∨ kv.1 = "value")) := by
  have hscan : configScan ["id", "config \x7b id value \x7d"] =
      (["id", "config"], ["id", "value"]) := rfl
  constructor
  · have hfc := filterConfigs_map st.contexts ["id", "config"] ["id", "value"]
      (by simp) hwf
    simp [getContexts, hscan, hfc]
  · intro o ho
    obtain ⟨c, hc, rfl⟩ := List.mem_map.mp ho
    obtain ⟨es, hes⟩ := hwf c hc
    constructor
    · intro kv hkv
      rcases mem_dictSet _ _ _ _ hkv with ⟨hmem, _⟩ | heq
      · have := (List.mem_filter.mp hmem).2
        simpa using this
      · right
        rw [heq]
    · intro es' hes' e he kv hkv
      rcases mem_dictSet _ _ _ _ hes' with ⟨hmem, hne⟩ | heq
      · exact absurd rfl hne
      · rw [hes] at heq
        simp only [projConfig, Prod.mk.injEq, Value.vDictList.injEq, true_and] at heq
        rw [heq] at he
        obtain ⟨e0, _, rfl⟩ := List.mem_map.mp he
        have := (List.mem_filter.mp hkv).2
        simpa using this

/-- Witness for claim C4: a mock holding one context created with a single
`FOO=bar` environment variable. -/
theorem claim_C4_witness :
    getContexts ⟨[rootSpaceItem], [], [ctxItem]⟩ (some ["id", "config \x7b id value \x7d"]) =
      .ok ([[("id", .vStr "c"),
             ("config", .vDictList [[("id", .fStr "FOO"), ("value", .fStr "bar")]])]],
           ["id", "config"]) := by
  rw [(claim_C4 ⟨[rootSpaceItem], [], [ctxItem]⟩ (by
    intro c hc
    simp only [MockState.contexts, List.mem_singleton] at hc
    exact ⟨_, by rw [hc]; rfl⟩)).1]
  rfl

/-- Claim C9 (amended): when an element of the caller's `query_fields` list
starts with `"config"`, `get_contexts` rewrites that list in place (removing
the matched element and appending the bare name `"config"`); the rewritten
list can coincide with the original (see the counterexample `["config"]`),
but for a genuine sub-selection such as `["id", "config \x7b id value \x7d"]`
the caller's list after the call is `["id", "config"]`, observably different
from the one passed in. -/
theorem claim_C9 (spaces0 stacks0 : List Dict) :
    getContexts ⟨spaces0, stacks0, []⟩ (some ["id", "config \x7b id value \x7d"]) =
      .ok ([], ["id", "config"]) ∧
    (["id", "config"] : List String) ≠ ["id", "config \x7b id value \x7d"] :=
  ⟨rfl, by decide⟩

/-- Counterexample to claim C9 as stated: for the input list `["config"]` —
whose (only) element starts with `"config"` — the loop removes `"config"` and
appends `"config"` again, so the caller's list after the call is equal to the
one passed in: the list has not been observably changed, and reusing it
yields the same behavior. -/
theorem claim_C9_counterexample :
    getContexts emptyMock (some ["config"]) = .ok ([], ["config"]) := rfl

/-- Claim C5: on any mock state that already holds a context with the given
name (all stored contexts carrying a `name`, as `create_context` stores) and
whose `space_id` resolves, a second `create_context` with that name raises
the structured duplicate-slug error with path `["contextCreateV2"]`, and the
call leaves the whole state — in particular the contexts collection and the
first context — unchanged: the duplicate check precedes the append, so there
is no partial mutation. -/
theorem claim_C5 (st : MockState) (context_name space_id description : String)
    (labels : List String) (envvars : List FlatDict)
    (hspace : ∃ d, getSpaceById st space_id none = .ok (some d))
    (hnames : ∀ c ∈ st.contexts, (dlookup c "name").isSome = true)
    (hdup : ∃ c ∈ st.contexts, dlookup c "name" = some (.vStr context_name))
    (henv : ∀ e ∈ envvars,
      (dlookup e "id").isSome = true ∧ (dlookup e "value").isSome = true) :
    createContext st context_name space_id description labels envvars =
      (.error (.apiError
        "could not persist context: context with this slug already exists for this account"
        ["contextCreateV2"]), st) := by
  obtain ⟨d, hd⟩ := hspace
  obtain ⟨cfg, hcfg⟩ := buildConfig_isOk envvars henv
  have hdupE := checkDupName_dup st.contexts context_name hnames hdup
  simp [createContext, hd, hcfg, hdupE]

/-- Witness for claim C5: after `create_context("c", "root", ...)` succeeded
once, repeating it fails with the duplicate-slug error and the state (with
its first context) is untouched. -/
theorem claim_C5_witness :
    createContext ⟨[rootSpaceItem], [], [ctxItem]⟩ "c" "root" "" [] [] =
      (.error (.apiError
        "could not persist context: context with this slug already exists for this account"
        ["contextCreateV2"]), ⟨[rootSpaceItem], [], [ctxItem]⟩) :=
  claim_C5 ⟨[rootSpaceItem], [], [ctxItem]⟩ "c" "root" "" [] []
    ⟨[("name", .vStr "root"), ("id", .vStr "root")], rfl⟩
    (by decide) ⟨ctxItem, by decide, by decide⟩ (by decide)

/-- Claim C6: on an empty mock, `create_space("root", "root", ...)` succeeds
in the bootstrap case, storing a space whose id is `"root"` (the name
verbatim, no generated suffix) and whose parent linkage is `None`;
`create_space("foo", "root", ...)` on the same empty mock raises the
parent-space-not-found error (leaving the state empty); and every successful
creation under a non-reserved name (neither `"root"` nor `"legacy"`) assigns
the id `name ++ "-" ++ suffix` with the generated suffix. -/
theorem claim_C6 :
    (∀ (description : String) (labels : List String) (ie : Bool) (gen : String),
      createSpace emptyMock "root" "root" description labels ie gen =
        (.ok ("spaceCreate", [("name", Value.vStr "root"), ("id", Value.vStr "root")]),
         ⟨[[("name", Value.vStr "root"), ("id", Value.vStr "root"),
            ("parent", Value.vNone), ("description", Value.vStr description),
            ("labels", Value.vStrList labels), ("inherit_entities", Value.vBool ie)]],
          [], []⟩)) ∧
    (∀ (description : String) (labels : List String) (ie : Bool) (gen : String),
      createSpace emptyMock "foo" "root" description labels ie gen =
        (.error (.apiError "parent space not found" ["spaceCreate"]), emptyMock)) ∧
    (∀ (st : MockState) (name parent description : String) (labels : List String)
        (ie : Bool) (gen : String), name ≠ "root" → name ≠ "legacy" →
      ∀ res st', createSpace st name parent description labels ie gen = (.ok res, st') →
      ∃ item, st'.spaces = st.spaces ++ [item] ∧
        dlookup item "id" = some (.vStr (name ++ "-" ++ gen))) := by
  refine ⟨fun _ _ _ _ => rfl, fun _ _ _ _ => rfl, ?_⟩
  intro st name parent description labels ie gen h1 h2 res st' heq
  simp only [createSpace] at heq
  cases hsp : getSpaceById st parent none with
  | error e =>
    rw [hsp] at heq
    simp at heq
  | ok ps =>
    rw [hsp] at heq
    cases ps with
    | none =>
      simp [h1] at heq
    | some d =>
      simp only [Option.isNone_some, Bool.false_eq_true, if_false] at heq
      simp only [Prod.mk.injEq] at heq
      obtain ⟨hres, hst⟩ := heq
      refine ⟨[("name", Value.vStr name), ("id", Value.vStr (name ++ "-" ++ gen)),
        ("parent", Value.vStr parent), ("description", Value.vStr description),
        ("labels", Value.vStrList labels), ("inherit_entities", Value.vBool ie)],
        ?_, ?_⟩
      · rw [← hst]
        simp [h1, h2]
      · simp [dlookup]

/-- A space created under the non-reserved name `"foo"` with generated suffix
`"abc123"`. -/
def fooItem : Dict :=
  [("name", .vStr "foo"), ("id", .vStr "foo-abc123"), ("parent", .vStr "root"),
   ("description", .vStr ""), ("labels", .vStrList []),
   ("inherit_entities", .vBool true)]

/-- Witness for claim C6 (the hypothesis-carrying third part): creating
`"foo"` under an existing root space stores an item whose id is the name
plus the generated suffix. -/
theorem claim_C6_witness :
    ∃ item, ([rootSpaceItem, fooItem] : List Dict) = [rootSpaceItem] ++ [item] ∧
      dlookup item "id" = some (.vStr "foo-abc123") :=
  claim_C6.2.2 ⟨[rootSpaceItem], [], []⟩ "foo" "root" "" [] true "abc123"
    (by decide) (by decide)
    ("spaceCreate", [("name", .vStr "foo"), ("id", .vStr "foo-abc123")])
    ⟨[rootSpaceItem, fooItem], [], []⟩ rfl

/-- Claim C7 (amended): the three lookup-by-id methods return `None` (not an
error) on an unmatched id, provided the requested field list contains
`"id"`, every stored entity of the corresponding collection has an `"id"`
binding, and — for contexts — no requested field starts with `"config"`.
(Without the `"id"` provisos the methods can raise `KeyError`; see the
counterexample.) -/
theorem claim_C7 (st : MockState) (qs qp qc : List String) (sid pid cid : String)
    (hqs : "id" ∈ qs)
    (hs1 : ∀ d ∈ st.stacks', (dlookup d "id").isSome = true)
    (hs2 : ∀ d ∈ st.stacks', dlookup d "id" ≠ some (.vStr sid))
    (hqp : "id" ∈ qp)
    (hp1 : ∀ d ∈ st.spaces, (dlookup d "id").isSome = true)
    (hp2 : ∀ d ∈ st.spaces, dlookup d "id" ≠ some (.vStr pid))
    (hqc : "id" ∈ qc)
    (hnc : ∀ f ∈ qc, pyStartsWith f "config" = false)
    (hc1 : ∀ d ∈ st.contexts, (dlookup d "id").isSome = true)
    (hc2 : ∀ d ∈ st.contexts, dlookup d "id" ≠ some (.vStr cid)) :
    getStackById st sid (some qs) = .ok none ∧
    getSpaceById st pid (some qp) = .ok none ∧
    getContextById st cid (some qc) = .ok none := by
  refine ⟨?_, ?_, ?_⟩
  · simp [getStackById, getStacks,
      filterByKeyEq_map_nomatch st.stacks' qs sid hqs hs1 hs2]
  · simp [getSpaceById, getSpaces,
      filterByKeyEq_map_nomatch st.spaces qp pid hqp hp1 hp2]
  · have hscan : configScan qc = (qc, []) := configScanStep_no_config _ _ _ _ hnc
    have hnoc : "config" ∉ qc := fun hm => absurd (hnc _ hm) (by decide)
    simp [getContextById, getContexts, hscan, hnoc,
      filterByKeyEq_map_nomatch st.contexts qc cid hqc hc1 hc2]

/-- Witness for claim C7: a mock holding one space, one stack and one context
answers all three lookups for the unknown id `"zzz"` with `None`. -/
theorem claim_C7_witness :
    getStackById ⟨[rootSpaceItem], [stackItem], [ctxItem]⟩ "zzz" (some ["id"]) = .ok none ∧
    getSpaceById ⟨[rootSpaceItem], [stackItem], [ctxItem]⟩ "zzz" (some ["id"]) = .ok none ∧
    getContextById ⟨[rootSpaceItem], [stackItem], [ctxItem]⟩ "zzz" (some ["id"]) = .ok none :=
  claim_C7 ⟨[rootSpaceItem], [stackItem], [ctxItem]⟩ ["id"] ["id"] ["id"] "zzz" "zzz" "zzz"
    (by decide) (by decide) (by decide) (by decide) (by decide) (by decide)
    (by decide) (by decide) (by decide) (by decide)

/-- Counterexample to claim C7 as stated: with a root space present (created
through the mock's own `create_space`), `get_space_by_id("zzz", ["name"])` —
an id matching nothing, with a query-field list not containing `"id"` —
raises `KeyError("id")` instead of returning `None`, because the id
comparison runs on the already-filtered dicts. -/
theorem claim_C7_counterexample :
    createSpace emptyMock "root" "root" "" [] true "g" =
      (.ok ("spaceCreate", [("name", Value.vStr "root"), ("id", Value.vStr "root")]),
       ⟨[rootSpaceItem], [], []⟩) ∧
    getSpaceById ⟨[rootSpaceItem], [], []⟩ "zzz" (some ["name"]) =
      .error (.keyError "id") :=
  ⟨rfl, rfl⟩

/-- Claim C10: `create_space` performs no uniqueness check on name or id:
whenever the parent resolves (or the root bootstrap applies) it
unconditionally appends the new space; in particular two consecutive
`create_space("root", "root", ...)` calls both succeed, leaving two spaces
with id `"root"` in the collection. -/
theorem claim_C10 :
    (∀ (st : MockState) (name parent description : String) (labels : List String)
        (ie : Bool) (gen : String),
      (∃ d, getSpaceById st parent none = .ok (some d)) →
      ∃ r item, createSpace st name parent description labels ie gen =
        (.ok r, ⟨st.spaces ++ [item], st.stacks', st.contexts⟩)) ∧
    (∀ g1 g2 : String,
      ((createSpace ((createSpace emptyMock "root" "root" "" [] true g1).2)
          "root" "root" "" [] true g2).2.spaces.map (fun d => dlookup d "id")) =
        [some (.vStr "root"), some (.vStr "root")]) := by
  constructor
  · intro st name parent description labels ie gen hd
    obtain ⟨d, hd⟩ := hd
    refine ⟨("spaceCreate", field_filter
        [("name", Value.vStr name),
         ("id", Value.vStr (if name = "root" ∨ name = "legacy" then name
            else name ++ "-" ++ gen)),
         ("parent", Value.vStr parent), ("description", Value.vStr description),
         ("labels", Value.vStrList labels), ("inherit_entities", Value.vBool ie)]
        ["id", "name"]),
      [("name", Value.vStr name),
       ("id", Value.vStr (if name = "root" ∨ name = "legacy" then name
          else name ++ "-" ++ gen)),
       ("parent", Value.vStr parent), ("description", Value.vStr description),
       ("labels", Value.vStrList labels), ("inherit_entities", Value.vBool ie)], ?_⟩
    simp [createSpace, hd]
  · intro g1 g2
    rfl

/-- Witness for claim C10: appending a space named `"dup"` under the existing
root space succeeds unconditionally. -/
theorem claim_C10_witness :
    ∃ r item, createSpace ⟨[rootSpaceItem], [], []⟩ "dup" "root" "" [] true "s1" =
      (.ok r, ⟨[rootSpaceItem] ++ [item], [], []⟩) :=
  claim_C10.1 ⟨[rootSpaceItem], [], []⟩ "dup" "root" "" [] true "s1"
    ⟨[("name", .vStr "root"), ("id", .vStr "root")], rfl⟩

/-- Witness for claim C3: the projection properties evaluated at the stored
context `ctxItem` and the request `["id"]`. -/
theorem claim_C3_witness :
    (∀ kv : String × Value, kv ∈ field_filter ctxItem ["id"] ↔
        kv ∈ ctxItem ∧ kv.1 ∈ ["id"]) ∧
    (field_filter ctxItem ["id"]).Sublist ctxItem ∧
    (∀ a b c : Value,
      field_filter [("id", a), ("name", b), ("space", c)] ["id"] = [("id", a)]) :=
  claim_C3 ctxItem ["id"]

/-- Witness for claim C9 (amended): on a mock holding a space and a stack, the
sub-selection request leaves the caller's list as `["id", "config"]`. -/
theorem claim_C9_witness :
    getContexts ⟨[rootSpaceItem], [stackItem], []⟩
        (some ["id", "config \x7b id value \x7d"]) =
      .ok ([], ["id", "config"]) ∧
    (["id", "config"] : List String) ≠ ["id", "config \x7b id value \x7d"] :=
  claim_C9 [rootSpaceItem] [stackItem]
